import Mathlib

/-!
Shallow embedding of `spiffdev/dynamodb-lock-client` (`src/index.ts`):
the fail-open DynamoDB lock client (acquisition protocol, condition
expressions, lease lifecycle) and theorems settling the specification
claims against it.
-/

namespace DynamoDbLockClient

/-- JavaScript-style values used for key components (`string | number`,
plus `undefined` for absent components). -/
inductive JSVal
| str (s : String)
| num (n : Int)
| undef
deriving DecidableEq, Repr

/-- JavaScript truthiness of a `JSVal` (`""`, `0` and `undefined` are falsy). -/
def JSVal.truthy : JSVal → Bool
  | .str s => s != ""
  | .num n => n != 0
  | .undef => false

/-- JavaScript truthiness of an optional string (`undefined` and `""` are falsy),
as applied by the source to `config.sortKey`. -/
def strOptTruthy : Option String → Bool
  | some s => s != ""
  | none => false

/-- Lease units of the TypeScript `LeaseUnit` union type. -/
inductive LeaseUnit
| milliseconds
| seconds
| minutes
| hours
| days
deriving DecidableEq, Repr

/-- `getMsForLease` from `src/index.ts` (the `default: throw` branch of the
source is unreachable for values of the `LeaseUnit` union type). -/
def getMsForLease (time : Int) (unit : LeaseUnit) : Int :=
  match unit with
  | .milliseconds => time
  | .seconds => time * 1000
  | .minutes => time * 1000 * 60
  | .hours => time * 1000 * 60 * 60
  | .days => time * 1000 * 60 * 60 * 24

/-- Digits read greedily from the front of a character list, as a number
(`none` when no leading digit). -/
def leadingDigits (cs : List Char) : Option Nat :=
  let ds := cs.takeWhile Char.isDigit
  if ds.isEmpty then none
  else some (ds.foldl (fun a c => a * 10 + (c.toNat - 48)) 0)

/-- JavaScript `parseInt` on a string (base 10): skip whitespace, optional
sign, then a greedy digit prefix; `none` models `NaN`. -/
def parseIntJS (s : String) : Option Int :=
  let cs := s.toList.dropWhile Char.isWhitespace
  match cs with
  | [] => none
  | c :: rest =>
    if c = Char.ofNat 45 then (leadingDigits rest).map (fun n => -(n : Int))
    else if c = Char.ofNat 43 then (leadingDigits rest).map (fun n => (n : Int))
    else (leadingDigits cs).map (fun n => (n : Int))

/-- The stored lock record attributes read back by `checkForExistingLock`:
`leaseDuration` is stored as a string, `lockAcquiredTimeUnixMs` may be
absent (`none`), `recordVersionNumber` is the fencing token. -/
structure LockRecord where
  leaseDuration : String
  lockAcquiredTimeUnixMs : Option Int
  recordVersionNumber : String
deriving DecidableEq, Repr

/-- The wait interval computed by `FailOpen.checkForExistingLock` when the
read finds an existing record (`src/index.ts` lines 162-172):
`parseInt(item.leaseDuration) || 10000`, then either
`Math.max(0, leaseDurationMs - (localTimeUnixMs - lockAcquiredTimeUnixMs))`
under `trustLocalTime`, or the full stored duration otherwise. An absent
`lockAcquiredTimeUnixMs` makes the subtraction `NaN` in JavaScript and
`setTimeout` treats a `NaN` delay as `0`, which is modelled as `0`. -/
def checkForExistingLockTimeout (trustLocalTime : Bool) (item : LockRecord)
    (localTimeUnixMs : Int) : Int :=
  let leaseDurationMs : Int :=
    match parseIntJS item.leaseDuration with
    | some v => if v = 0 then 10000 else v
    | none => 10000
  if trustLocalTime then
    match item.lockAcquiredTimeUnixMs with
    | some lockAcquiredTimeUnixMs =>
        max 0 (leaseDurationMs - (localTimeUnixMs - lockAcquiredTimeUnixMs))
    | none => 0
  else leaseDurationMs

/-- Claim C1: for an acquisition attempt that finds an existing lock record
(whose stored lease duration parses to a nonzero value `d`), the wait
interval before the conditional overwrite is
`max(0, storedLeaseDurationMs - (nowMs - storedAcquiredAtMs))` when
`trustLocalTime` is enabled, and the full stored lease duration when it is
disabled. -/
theorem checkForExistingLock_wait_interval
    (item : LockRecord) (d localTimeUnixMs lockAcquiredTimeUnixMs : Int)
    (hparse : parseIntJS item.leaseDuration = some d) (hd : d ≠ 0)
    (hacq : item.lockAcquiredTimeUnixMs = some lockAcquiredTimeUnixMs) :
    checkForExistingLockTimeout true item localTimeUnixMs
        = max 0 (d - (localTimeUnixMs - lockAcquiredTimeUnixMs))
      ∧ checkForExistingLockTimeout false item localTimeUnixMs = d := by
  unfold checkForExistingLockTimeout
  rw [hparse, hacq]
  simp [hd]

/-- Witness for claim C1 at a concrete record: stored lease duration
`"10000"`, acquired at time `0`, observed at local time `4000`. -/
theorem checkForExistingLock_wait_interval_witness :
    checkForExistingLockTimeout true ⟨"10000", some 0, "A"⟩ 4000 = 6000
      ∧ checkForExistingLockTimeout false ⟨"10000", some 0, "A"⟩ 4000 = 10000 := by
  have h := checkForExistingLock_wait_interval ⟨"10000", some 0, "A"⟩ 10000 4000 0
    (by decide) (by decide) rfl
  exact ⟨h.1, h.2⟩

/-- `buildAttributeExistsExpression` from `src/index.ts`. -/
def buildAttributeExistsExpression (sortKey : Option String) : String :=
  let expr := "attribute_exists(#partitionKey)"
  if strOptTruthy sortKey then
    "(" ++ (expr ++ " and attribute_exists(#sortKey)") ++ ")"
  else expr

/-- `buildAttributeNotExistsExpression` from `src/index.ts`. -/
def buildAttributeNotExistsExpression (sortKey : Option String) : String :=
  let expr := "attribute_not_exists(#partitionKey)"
  if strOptTruthy sortKey then
    "(" ++ (expr ++ " and attribute_not_exists(#sortKey)") ++ ")"
  else expr

/-- `buildExpressionAttributeNames` from `src/index.ts`. -/
def buildExpressionAttributeNames (partitionKey : String) (sortKey : Option String) :
    List (String × String) :=
  let names := [("#partitionKey", partitionKey)]
  if strOptTruthy sortKey then names ++ [("#sortKey", sortKey.getD "")] else names

/-- The `FailOpenConfig` interface from `src/index.ts` (the `dynamodb` handle
is external and not part of the state the claims mention). -/
structure FailOpenConfig where
  ownerName : String
  lockTable : String
  partitionKey : String
  sortKey : Option String
  heartbeatPeriodMs : Option Int
  leaseDuration : Int
  leaseUnit : LeaseUnit
  trustLocalTime : Bool
  retryCount : Option Int
deriving DecidableEq, Repr

/-- The `AcquireLockData` data bag threaded through the acquisition methods. -/
structure AcquireLockData where
  partitionID : JSVal
  sortID : JSVal
  ownerName : String
  retryCount : Int
  recordVersionNumber : String
deriving DecidableEq, Repr

/-- A `PutCommandInput` as built by the source (item attributes in insertion
order, condition expression, and expression attribute names/values). -/
structure PutParams where
  tableName : String
  item : List (String × JSVal)
  conditionExpression : String
  expressionAttributeNames : List (String × String)
  expressionAttributeValues : List (String × String)
deriving DecidableEq, Repr

/-- A `DeleteCommandInput` as built by `Lock.release`. -/
structure DeleteParams where
  tableName : String
  key : List (String × JSVal)
  conditionExpression : String
  expressionAttributeNames : List (String × String)
  expressionAttributeValues : List (String × String)
deriving DecidableEq, Repr

/-- The `PutCommandInput` built by `FailOpen.acquireNewLock`
(`src/index.ts` lines 176-196): the item always carries `leaseDuration`
(resolved to milliseconds, `leaseDuration || 10000`), `ownerName`,
`recordVersionNumber` and `createdAt`; `lockAcquiredTimeUnixMs` is added
under `trustLocalTime`, and the sort key attribute only when
`dataBag.sortID` is truthy. -/
def acquireNewLockParams (config : FailOpenConfig) (dataBag : AcquireLockData)
    (nowIso : String) (nowMs : Int) : PutParams :=
  let item : List (String × JSVal) :=
    [(config.partitionKey, dataBag.partitionID),
     ("leaseDuration", .str (toString (getMsForLease
        (if config.leaseDuration = 0 then 10000 else config.leaseDuration) config.leaseUnit))),
     ("ownerName", .str dataBag.ownerName),
     ("recordVersionNumber", .str dataBag.recordVersionNumber),
     ("createdAt", .str nowIso)]
  let item := if config.trustLocalTime then item ++ [("lockAcquiredTimeUnixMs", .num nowMs)] else item
  let item := if dataBag.sortID.truthy then item ++ [(config.sortKey.getD "undefined", dataBag.sortID)] else item
  { tableName := config.lockTable
    item := item
    conditionExpression := buildAttributeNotExistsExpression config.sortKey
    expressionAttributeNames := buildExpressionAttributeNames config.partitionKey config.sortKey
    expressionAttributeValues := [] }

/-- The `PutCommandInput` built by `FailOpen.acquireExistingLock`
(`src/index.ts` lines 198-227): same item as a fresh acquisition, with the
condition `<not-exists> or (recordVersionNumber = :recordVersionNumber)`
bound to the fencing token observed in the preceding read. -/
def acquireExistingLockParams (config : FailOpenConfig) (dataBag : AcquireLockData)
    (lock : LockRecord) (nowIso : String) (nowMs : Int) : PutParams :=
  let item : List (String × JSVal) :=
    [(config.partitionKey, dataBag.partitionID),
     ("leaseDuration", .str (toString (getMsForLease
        (if config.leaseDuration = 0 then 10000 else config.leaseDuration) config.leaseUnit))),
     ("ownerName", .str dataBag.ownerName),
     ("recordVersionNumber", .str dataBag.recordVersionNumber),
     ("createdAt", .str nowIso)]
  let item := if config.trustLocalTime then item ++ [("lockAcquiredTimeUnixMs", .num nowMs)] else item
  let item := if dataBag.sortID.truthy then item ++ [(config.sortKey.getD "undefined", dataBag.sortID)] else item
  { tableName := config.lockTable
    item := item
    conditionExpression :=
      buildAttributeNotExistsExpression config.sortKey ++ " or (recordVersionNumber = :recordVersionNumber)"
    expressionAttributeNames := buildExpressionAttributeNames config.partitionKey config.sortKey
    expressionAttributeValues := [(":recordVersionNumber", lock.recordVersionNumber)] }

/-- Abstract syntax of the condition expressions this client emits. -/
inductive Cond
| attrExists (name : String)
| attrNotExists (name : String)
| rvnEq (param : String)
| paren (c : Cond)
| and (a b : Cond)
| or (a b : Cond)
deriving DecidableEq, Repr

/-- Rendering of a `Cond` into the DynamoDB condition-expression grammar. -/
def Cond.render : Cond → String
  | .attrExists n => "attribute_exists(" ++ n ++ ")"
  | .attrNotExists n => "attribute_not_exists(" ++ n ++ ")"
  | .rvnEq p => "recordVersionNumber = " ++ p
  | .paren c => "(" ++ c.render ++ ")"
  | .and a b => a.render ++ " and " ++ b.render
  | .or a b => a.render ++ " or " ++ b.render

/-- A stored record as the backend evaluates conditions against it:
whether a record exists at the addressed key, and its attributes. -/
structure RecordView where
  present : Bool
  attrs : List (String × String)
deriving DecidableEq, Repr

/-- An attribute exists on the addressed record. -/
def RecordView.hasAttr (r : RecordView) (name : String) : Bool :=
  r.present && (r.attrs.lookup name).isSome

/-- The record exists and its `recordVersionNumber` attribute equals `v`. -/
def RecordView.rvnIs (r : RecordView) (v : String) : Bool :=
  r.present && (r.attrs.lookup "recordVersionNumber" == some v)

/-- Modelled from the spec: evaluation of the emitted condition expressions
by the storage backend (the "storage backend contract" of the spec, which
is external to `src/`): `#`-placeholders resolve through the expression
attribute names, `:`-placeholders through the expression attribute values,
attribute tests are false on an absent record, and `none` marks an
expression referencing an unbound placeholder. -/
def Cond.eval (names values : List (String × String)) (r : RecordView) : Cond → Option Bool
  | .attrExists n => (names.lookup n).map r.hasAttr
  | .attrNotExists n => (names.lookup n).map (fun a => !r.hasAttr a)
  | .rvnEq p => (values.lookup p).map r.rvnIs
  | .paren c => Cond.eval names values r c
  | .and a b =>
    match Cond.eval names values r a, Cond.eval names values r b with
    | some x, some y => some (x && y)
    | _, _ => none
  | .or a b =>
    match Cond.eval names values r a, Cond.eval names values r b with
    | some x, some y => some (x || y)
    | _, _ => none

/-- The non-existence condition as abstract syntax: partition-key absence,
and with a configured sort key the conjunction with sort-key absence. -/
def notExistsCond (sortKey : Option String) : Cond :=
  if strOptTruthy sortKey then
    .paren (.and (.attrNotExists "#partitionKey") (.attrNotExists "#sortKey"))
  else .attrNotExists "#partitionKey"

/-- The existence condition as abstract syntax. -/
def existsCond (sortKey : Option String) : Cond :=
  if strOptTruthy sortKey then
    .paren (.and (.attrExists "#partitionKey") (.attrExists "#sortKey"))
  else .attrExists "#partitionKey"

/-- The `acquireExistingLock` condition as abstract syntax: record absence
or fencing-token equality. -/
def acquireExistingCond (sortKey : Option String) : Cond :=
  .or (notExistsCond sortKey) (.paren (.rvnEq ":recordVersionNumber"))

theorem buildAttributeNotExistsExpression_render (sortKey : Option String) :
    buildAttributeNotExistsExpression sortKey = (notExistsCond sortKey).render := by
  unfold buildAttributeNotExistsExpression notExistsCond
  cases h : strOptTruthy sortKey <;> simp [Cond.render]

theorem buildAttributeExistsExpression_render (sortKey : Option String) :
    buildAttributeExistsExpression sortKey = (existsCond sortKey).render := by
  unfold buildAttributeExistsExpression existsCond
  cases h : strOptTruthy sortKey <;> simp [Cond.render]

theorem notExistsCond_eval (partitionKey : String) (sortKey : Option String)
    (values : List (String × String)) (r : RecordView) :
    Cond.eval (buildExpressionAttributeNames partitionKey sortKey) values r (notExistsCond sortKey)
      = some (if strOptTruthy sortKey
              then !r.hasAttr partitionKey && !r.hasAttr (sortKey.getD "")
              else !r.hasAttr partitionKey) := by
  unfold notExistsCond buildExpressionAttributeNames
  cases h : strOptTruthy sortKey <;> simp [Cond.eval, List.lookup]

/-- Claim C2: the insert-if-absent put's precondition is record
non-existence (with a configured sort key, the conjunction of
partition-key non-existence and sort-key non-existence), and the post-wait
conditional overwrite's precondition is record absence OR equality of the
stored fencing token with the value observed in the preceding read: the
emitted strings are the renderings of these conditions, and the backend
evaluates them to exactly these predicates on every record view. -/
theorem acquire_conditional_put_preconditions
    (config : FailOpenConfig) (dataBag : AcquireLockData) (lock : LockRecord)
    (nowIso : String) (nowMs : Int) (r : RecordView) :
    (acquireNewLockParams config dataBag nowIso nowMs).conditionExpression
        = (notExistsCond config.sortKey).render
      ∧ Cond.eval (acquireNewLockParams config dataBag nowIso nowMs).expressionAttributeNames
          (acquireNewLockParams config dataBag nowIso nowMs).expressionAttributeValues r
          (notExistsCond config.sortKey)
        = some (if strOptTruthy config.sortKey
                then !r.hasAttr config.partitionKey && !r.hasAttr (config.sortKey.getD "")
                else !r.hasAttr config.partitionKey)
      ∧ (acquireExistingLockParams config dataBag lock nowIso nowMs).conditionExpression
        = (acquireExistingCond config.sortKey).render
      ∧ Cond.eval (acquireExistingLockParams config dataBag lock nowIso nowMs).expressionAttributeNames
          (acquireExistingLockParams config dataBag lock nowIso nowMs).expressionAttributeValues r
          (acquireExistingCond config.sortKey)
        = some ((if strOptTruthy config.sortKey
                 then !r.hasAttr config.partitionKey && !r.hasAttr (config.sortKey.getD "")
                 else !r.hasAttr config.partitionKey)
                || r.rvnIs lock.recordVersionNumber) := by
  refine ⟨buildAttributeNotExistsExpression_render config.sortKey, ?_, ?_, ?_⟩
  · rw [show (acquireNewLockParams config dataBag nowIso nowMs).expressionAttributeNames
        = buildExpressionAttributeNames config.partitionKey config.sortKey from rfl]
    exact notExistsCond_eval config.partitionKey config.sortKey _ r
  · show buildAttributeNotExistsExpression config.sortKey ++ " or (recordVersionNumber = :recordVersionNumber)"
        = (acquireExistingCond config.sortKey).render
    unfold acquireExistingCond notExistsCond buildAttributeNotExistsExpression
    cases h : strOptTruthy config.sortKey <;> rfl
  · show Cond.eval (buildExpressionAttributeNames config.partitionKey config.sortKey)
        [(":recordVersionNumber", lock.recordVersionNumber)] r (acquireExistingCond config.sortKey) = _
    unfold acquireExistingCond
    rw [show Cond.eval (buildExpressionAttributeNames config.partitionKey config.sortKey)
          [(":recordVersionNumber", lock.recordVersionNumber)] r
          (.or (notExistsCond config.sortKey) (.paren (.rvnEq ":recordVersionNumber")))
        = match Cond.eval (buildExpressionAttributeNames config.partitionKey config.sortKey)
            [(":recordVersionNumber", lock.recordVersionNumber)] r (notExistsCond config.sortKey),
            Cond.eval (buildExpressionAttributeNames config.partitionKey config.sortKey)
            [(":recordVersionNumber", lock.recordVersionNumber)] r (.paren (.rvnEq ":recordVersionNumber")) with
          | some x, some y => some (x || y)
          | _, _ => none from rfl]
    rw [notExistsCond_eval]
    simp [Cond.eval, List.lookup]

/-- The `LockData` configuration a `Lock` instance is constructed with. -/
structure LockConfig where
  lockTable : String
  partitionKey : String
  sortKey : Option String
  partitionID : JSVal
  sortID : JSVal
  ownerName : String
  leaseDuration : Int
  leaseUnit : LeaseUnit
  trustLocalTime : Bool
  heartbeatPeriodMs : Option Int
deriving DecidableEq, Repr

/-- A storage error as surfaced by the AWS SDK callback (`error.code` is
what the source branches on). -/
structure DynError where
  code : String
deriving DecidableEq, Repr

/-- The mutable fields of a `Lock` instance: current fencing token,
`released`, `refreshing`, the deferred release continuation (identified by
the queued release call's callback id) and whether a renewal timer is
scheduled. -/
structure LockState where
  config : LockConfig
  recordVersionNumber : String
  released : Bool
  refreshing : Bool
  refreshCallback : Option Nat
  heartbeatTimeout : Bool
deriving DecidableEq, Repr

/-- Externally observable actions of a `Lock`: storage commands it sends,
caller callbacks it invokes, `"error"` events it emits, console warnings,
and renewal-timer scheduling. -/
inductive Effect
| sendPut (params : PutParams)
| sendDelete (params : DeleteParams)
| invokeCallback (callbackId : Nat) (error : Option DynError)
| emitError (error : DynError)
| warn (message : String)
| scheduleHeartbeat
deriving DecidableEq, Repr

/-- The `Lock` constructor (`src/index.ts` lines 276-284): `released` starts
false and a renewal timer is scheduled only when `heartbeatPeriodMs` is
truthy. -/
def Lock.init (config : LockConfig) (recordVersionNumber : String) : LockState :=
  { config := config
    recordVersionNumber := recordVersionNumber
    released := false
    refreshing := false
    refreshCallback := none
    heartbeatTimeout :=
      match config.heartbeatPeriodMs with
      | some n => n != 0
      | none => false }

/-- The `DeleteCommandInput` built by `Lock.release`
(`src/index.ts` lines 300-315): keyed by the stored identity (sort key
component included whenever a sort key is configured), conditioned on
record existence and equality with the lease's current fencing token. -/
def releaseDeleteParams (c : LockConfig) (recordVersionNumber : String) : DeleteParams :=
  let key : List (String × JSVal) := [(c.partitionKey, c.partitionID)]
  let key := if strOptTruthy c.sortKey then key ++ [(c.sortKey.getD "", c.sortID)] else key
  { tableName := c.lockTable
    key := key
    conditionExpression :=
      buildAttributeExistsExpression c.sortKey ++ " and recordVersionNumber = :recordVersionNumber"
    expressionAttributeNames := buildExpressionAttributeNames c.partitionKey c.sortKey
    expressionAttributeValues := [(":recordVersionNumber", recordVersionNumber)] }

/-- The `PutCommandInput` built by `Lock.refreshLock`
(`src/index.ts` lines 331-353): the renewed item carries the freshly
generated token `newGuid`, while the condition compares against the
lease's current (pre-renewal) token. -/
def refreshLockParams (c : LockConfig) (currentRecordVersionNumber newGuid : String)
    (nowIso : String) (nowMs : Int) : PutParams :=
  let item : List (String × JSVal) :=
    [(c.partitionKey, c.partitionID),
     ("leaseDuration", .str (toString (getMsForLease
        (if c.leaseDuration = 0 then 10000 else c.leaseDuration) c.leaseUnit))),
     ("ownerName", .str c.ownerName),
     ("recordVersionNumber", .str newGuid),
     ("createdAt", .str nowIso)]
  let item := if c.trustLocalTime then item ++ [("lockAcquiredTimeUnixMs", .num nowMs)] else item
  let item := if strOptTruthy c.sortKey then item ++ [(c.sortKey.getD "", c.sortID)] else item
  { tableName := c.lockTable
    item := item
    conditionExpression :=
      buildAttributeExistsExpression c.sortKey ++ " and recordVersionNumber = :recordVersionNumber"
    expressionAttributeNames := buildExpressionAttributeNames c.partitionKey c.sortKey
    expressionAttributeValues := [(":recordVersionNumber", currentRecordVersionNumber)] }

/-- `Lock.release` up to the point the delete command is sent
(`src/index.ts` lines 286-315): a released lease returns silently; while a
renewal is in flight the call is recorded as the deferred continuation
(carrying its callback) and nothing is sent; otherwise `released` is set,
the renewal timer is cleared and the conditional delete is issued. -/
def Lock.release (callbackId : Nat) (s : LockState) : LockState × List Effect :=
  if s.released then (s, [])
  else if s.refreshing then ({ s with refreshCallback := some callbackId }, [])
  else
    let s1 := { s with released := true, heartbeatTimeout := false }
    (s1, [.sendDelete (releaseDeleteParams s1.config s1.recordVersionNumber)])

/-- The completion callback of `Lock.release`'s delete command
(`src/index.ts` lines 316-321): a `ConditionalCheckFailedException` is
logged as a warning, every outcome invokes the caller's callback with
`undefined` (success). -/
def Lock.releaseDeleteCompleted (callbackId : Nat) (error : Option DynError) : List Effect :=
  (match error with
   | some e =>
     if e.code = "ConditionalCheckFailedException" then
       [Effect.warn "WARNING: Failed to release lock: ConditionalCheckFailedException."]
     else []
   | none => []) ++ [Effect.invokeCallback callbackId none]

/-- Entry of `Lock.refreshLock` (`src/index.ts` lines 328-354): sets
`refreshing` and sends the conditional renewal put. -/
def Lock.refreshLock (newGuid : String) (nowIso : String) (nowMs : Int)
    (s : LockState) : LockState × List Effect :=
  ({ s with refreshing := true },
   [.sendPut (refreshLockParams s.config s.recordVersionNumber newGuid nowIso nowMs)])

/-- The completion callback of `Lock.refreshLock`'s put
(`src/index.ts` lines 354-367), in source order: clear `refreshing`; run
the deferred release continuation if one is queued (it executes against
the state as it stands, the fencing token not yet replaced); clear the
continuation; on error emit the `"error"` event and stop; on success adopt
`newGuid` as the current token and reschedule the renewal timer only if
not released. -/
def Lock.refreshCompleted (newGuid : String) (error : Option DynError)
    (s : LockState) : LockState × List Effect :=
  let s1 := { s with refreshing := false }
  let step :=
    match s1.refreshCallback with
    | some callbackId => Lock.release callbackId s1
    | none => (s1, ([] : List Effect))
  let s3 := { step.1 with refreshCallback := none }
  match error with
  | some e => (s3, step.2 ++ [.emitError e])
  | none =>
    let s4 := { s3 with recordVersionNumber := newGuid }
    if !s4.released then
      ({ s4 with heartbeatTimeout := true }, step.2 ++ [.scheduleHeartbeat])
    else (s4, step.2)

/-- An effect is a callback invocation for the given callback id. -/
def Effect.isInvokeOf (callbackId : Nat) : Effect → Bool
  | .invokeCallback c _ => c == callbackId
  | _ => false

/-- Number of invocations of the given callback in an effect list. -/
def countCallbackInvocations (callbackId : Nat) (effects : List Effect) : Nat :=
  (effects.filter (Effect.isInvokeOf callbackId)).length

/-- An effect is a delete command sent to the backend. -/
def Effect.isSendDelete : Effect → Bool
  | .sendDelete _ => true
  | _ => false

/-- An effect is a put command sent to the backend. -/
def Effect.isSendPut : Effect → Bool
  | .sendPut _ => true
  | _ => false

/-- An effect is a console warning. -/
def Effect.isWarn : Effect → Bool
  | .warn _ => true
  | _ => false

/-- An effect schedules the renewal timer. -/
def Effect.isScheduleHeartbeat : Effect → Bool
  | .scheduleHeartbeat => true
  | _ => false

/-- Number of delete commands in an effect list. -/
def countDeletes (effects : List Effect) : Nat :=
  (effects.filter Effect.isSendDelete).length

/-- A concrete lease configuration used by witnesses and counterexamples. -/
def sampleLockConfig : LockConfig :=
  { lockTable := "locks"
    partitionKey := "id"
    sortKey := none
    partitionID := .str "resource-1"
    sortID := .undef
    ownerName := "owner-1"
    leaseDuration := 10000
    leaseUnit := .milliseconds
    trustLocalTime := false
    heartbeatPeriodMs := some 3000 }

/-- A freshly acquired lease with fencing token `"A"`. -/
def heldLease : LockState := Lock.init sampleLockConfig "A"

/-- `heldLease` after its renewal timer fired: the renewal put for new token
`"B"` is in flight. -/
def renewingLease : LockState :=
  (Lock.refreshLock "B" "2026-01-01T00:00:00.000Z" 1000 heldLease).1

/-- `renewingLease` after `release` was requested with callback `7` while
the renewal was in flight: the release is deferred. -/
def deferredReleaseLease : LockState := (Lock.release 7 renewingLease).1

/-- Claim C3 is false on the code: with fencing token `"A"`, a renewal to
token `"B"` in flight and a release deferred behind it, the successful
renewal completion does adopt `"B"` as the lease's token, but the deferred
release's conditional delete was issued against the pre-renewal token
`"A"`, not the renewal's new token `"B"`. -/
theorem deferred_release_stale_token_counterexample :
    (Lock.refreshCompleted "B" none deferredReleaseLease).1.recordVersionNumber = "B"
  ∧ (Lock.refreshCompleted "B" none deferredReleaseLease).2
      = [Effect.sendDelete (releaseDeleteParams sampleLockConfig "A")]
  ∧ (releaseDeleteParams sampleLockConfig "A").expressionAttributeValues
      = [(":recordVersionNumber", "A")]
  ∧ ¬ ((releaseDeleteParams sampleLockConfig "A").expressionAttributeValues
      = [(":recordVersionNumber", "B")]) := by
  decide

/-- Claim C3 (amended): if release is requested while a renewal write is in
flight and that renewal succeeds, the deferred release executes before the
new token is adopted, so its conditional delete compares against the
pre-renewal fencing token; only afterwards does the lease adopt the
renewal's new token as current, and no further renewal is scheduled. -/
theorem refresh_success_with_deferred_release
    (s : LockState) (callbackId : Nat) (newGuid : String)
    (hrefreshing : s.refreshing = true) (hcb : s.refreshCallback = some callbackId)
    (hrel : s.released = false) :
    (Lock.refreshCompleted newGuid none s).2
        = [.sendDelete (releaseDeleteParams s.config s.recordVersionNumber)]
      ∧ (Lock.refreshCompleted newGuid none s).1.recordVersionNumber = newGuid
      ∧ (Lock.refreshCompleted newGuid none s).1.released = true
      ∧ (Lock.refreshCompleted newGuid none s).2.filter Effect.isScheduleHeartbeat = [] := by
  simp [Lock.refreshCompleted, Lock.release, hcb, hrel, Effect.isScheduleHeartbeat]

/-- Witness for the amended claim C3 at the concrete deferred-release
trace. -/
theorem refresh_success_with_deferred_release_witness :
    (Lock.refreshCompleted "B" none deferredReleaseLease).2
        = [.sendDelete (releaseDeleteParams deferredReleaseLease.config
            deferredReleaseLease.recordVersionNumber)]
      ∧ (Lock.refreshCompleted "B" none deferredReleaseLease).1.recordVersionNumber = "B"
      ∧ (Lock.refreshCompleted "B" none deferredReleaseLease).1.released = true
      ∧ (Lock.refreshCompleted "B" none deferredReleaseLease).2.filter
          Effect.isScheduleHeartbeat = [] :=
  refresh_success_with_deferred_release deferredReleaseLease 7 "B"
    (by decide) (by decide) (by decide)

/-- Claim C4: a release requested while a renewal write is in flight issues
no delete at that point and is recorded as the deferred continuation; when
the renewal's write completes (success or failure), the deferred release's
conditional delete is issued first, and no further renewal is scheduled in
the completion or afterwards. -/
theorem release_during_refresh_is_deferred
    (s : LockState) (callbackId : Nat) (newGuid : String) (error : Option DynError)
    (hrel : s.released = false) (hrefreshing : s.refreshing = true) :
    (Lock.release callbackId s).2 = []
  ∧ (Lock.release callbackId s).1 = { s with refreshCallback := some callbackId }
  ∧ (Lock.refreshCompleted newGuid error (Lock.release callbackId s).1).2
      = Effect.sendDelete (releaseDeleteParams s.config s.recordVersionNumber)
        :: (match error with
            | some e => [Effect.emitError e]
            | none => [])
  ∧ (Lock.refreshCompleted newGuid error (Lock.release callbackId s).1).2.filter
      Effect.isScheduleHeartbeat = []
  ∧ (Lock.refreshCompleted newGuid error (Lock.release callbackId s).1).1.released = true
  ∧ (Lock.refreshCompleted newGuid error (Lock.release callbackId s).1).1.heartbeatTimeout = false := by
  cases error <;>
    simp [Lock.refreshCompleted, Lock.release, hrel, hrefreshing, Effect.isScheduleHeartbeat]

/-- Witness for claim C4 at the concrete in-flight renewal, for a failing
renewal write. -/
theorem release_during_refresh_is_deferred_witness :
    (Lock.release 7 renewingLease).2 = []
  ∧ (Lock.release 7 renewingLease).1 = { renewingLease with refreshCallback := some 7 }
  ∧ (Lock.refreshCompleted "B" (some ⟨"ServiceUnavailable"⟩) (Lock.release 7 renewingLease).1).2
      = Effect.sendDelete (releaseDeleteParams renewingLease.config renewingLease.recordVersionNumber)
        :: [Effect.emitError ⟨"ServiceUnavailable"⟩]
  ∧ (Lock.refreshCompleted "B" (some ⟨"ServiceUnavailable"⟩)
      (Lock.release 7 renewingLease).1).2.filter Effect.isScheduleHeartbeat = []
  ∧ (Lock.refreshCompleted "B" (some ⟨"ServiceUnavailable"⟩)
      (Lock.release 7 renewingLease).1).1.released = true
  ∧ (Lock.refreshCompleted "B" (some ⟨"ServiceUnavailable"⟩)
      (Lock.release 7 renewingLease).1).1.heartbeatTimeout = false :=
  release_during_refresh_is_deferred renewingLease 7 "B" (some ⟨"ServiceUnavailable"⟩)
    (by decide) (by decide)

/-- The observable effects of calling release twice on the same lease: the
first call's delete command, the completion of that delete, and the second
call. -/
def releaseTwiceEffects (s : LockState) (cb1 cb2 : Nat) (error : Option DynError) :
    List Effect :=
  (Lock.release cb1 s).2 ++ Lock.releaseDeleteCompleted cb1 error
    ++ (Lock.release cb2 (Lock.release cb1 s).1).2

/-- Claim C6 is false on the code: calling release twice on a held lease
(callbacks `1` then `2`) invokes the second call's completion callback
zero times, not once — the second call is a silent no-op. -/
theorem release_twice_counterexample :
    countCallbackInvocations 2 (releaseTwiceEffects heldLease 1 2 none) = 0
  ∧ ¬ (countCallbackInvocations 2 (releaseTwiceEffects heldLease 1 2 none) = 1) := by
  decide

/-- Claim C6 (amended): calling release twice on a held lease invokes the
first call's completion callback exactly once and the second call's not at
all (the second call is a silent no-op that changes nothing); at most one
conditional delete is issued, and the second call performs no storage
operation. -/
theorem release_twice_amended
    (s : LockState) (cb1 cb2 : Nat) (error : Option DynError)
    (hrel : s.released = false) (hrefreshing : s.refreshing = false) (hne : cb1 ≠ cb2) :
    Lock.release cb2 (Lock.release cb1 s).1 = ((Lock.release cb1 s).1, [])
  ∧ countCallbackInvocations cb1 (releaseTwiceEffects s cb1 cb2 error) = 1
  ∧ countCallbackInvocations cb2 (releaseTwiceEffects s cb1 cb2 error) = 0
  ∧ countDeletes (releaseTwiceEffects s cb1 cb2 error) = 1 := by
  have hbe : (cb1 == cb2) = false := by
    simp [hne]
  rcases error with _ | e
  · simp [releaseTwiceEffects, Lock.release, Lock.releaseDeleteCompleted,
      countCallbackInvocations, countDeletes, Effect.isInvokeOf, Effect.isSendDelete,
      hrel, hrefreshing, hbe]
  · by_cases hc : e.code = "ConditionalCheckFailedException" <;>
      simp [releaseTwiceEffects, Lock.release, Lock.releaseDeleteCompleted,
        countCallbackInvocations, countDeletes, Effect.isInvokeOf, Effect.isSendDelete,
        hrel, hrefreshing, hbe, hc]

/-- Witness for the amended claim C6 at the concrete held lease. -/
theorem release_twice_amended_witness :
    Lock.release 2 (Lock.release 1 heldLease).1 = ((Lock.release 1 heldLease).1, [])
  ∧ countCallbackInvocations 1 (releaseTwiceEffects heldLease 1 2 none) = 1
  ∧ countCallbackInvocations 2 (releaseTwiceEffects heldLease 1 2 none) = 0
  ∧ countDeletes (releaseTwiceEffects heldLease 1 2 none) = 1 :=
  release_twice_amended heldLease 1 2 none (by decide) (by decide) (by decide)

/-- Claim C7 is false on the code: a delete failure other than a
conditional-check failure (here `ServiceUnavailable`) is swallowed and the
release callback still signals success, but nothing is logged — the
effects carry no warning at all. -/
theorem release_delete_other_error_not_logged_counterexample :
    Lock.releaseDeleteCompleted 1 (some ⟨"ServiceUnavailable"⟩)
        = [Effect.invokeCallback 1 none]
  ∧ (Lock.releaseDeleteCompleted 1 (some ⟨"ServiceUnavailable"⟩)).filter Effect.isWarn = [] := by
  decide

/-- Claim C7 (amended): for every outcome of release's conditional delete,
the completion callback is invoked exactly once, signalling success; a
conditional-check failure is the only outcome logged as a warning; any
other failure is swallowed without logging; no further storage command is
issued. -/
theorem release_delete_outcome_handling (callbackId : Nat) (error : Option DynError) :
    countCallbackInvocations callbackId (Lock.releaseDeleteCompleted callbackId error) = 1
  ∧ (Lock.releaseDeleteCompleted callbackId error).getLast?
      = some (.invokeCallback callbackId none)
  ∧ ((Lock.releaseDeleteCompleted callbackId error).filter Effect.isWarn).length
      = (match error with
         | some e => if e.code = "ConditionalCheckFailedException" then 1 else 0
         | none => 0)
  ∧ countDeletes (Lock.releaseDeleteCompleted callbackId error) = 0
  ∧ (Lock.releaseDeleteCompleted callbackId error).filter Effect.isSendPut = [] := by
  rcases error with _ | e
  · simp [Lock.releaseDeleteCompleted, countCallbackInvocations, countDeletes,
      Effect.isInvokeOf, Effect.isSendDelete, Effect.isSendPut, Effect.isWarn]
  · by_cases hc : e.code = "ConditionalCheckFailedException" <;>
      simp [Lock.releaseDeleteCompleted, countCallbackInvocations, countDeletes,
        Effect.isInvokeOf, Effect.isSendDelete, Effect.isSendPut, Effect.isWarn, hc]

/-- Claim C8: when a renewal's conditional write fails and no release is
deferred behind it, the lease emits the `"error"` event carrying the
underlying cause and nothing else: the fencing token is not replaced, no
retry put is sent, no further renewal is scheduled, and the released flag
is untouched. -/
theorem refresh_failure_behavior
    (s : LockState) (newGuid : String) (e : DynError)
    (hcb : s.refreshCallback = none) :
    (Lock.refreshCompleted newGuid (some e) s).2 = [.emitError e]
  ∧ (Lock.refreshCompleted newGuid (some e) s).1.recordVersionNumber = s.recordVersionNumber
  ∧ (Lock.refreshCompleted newGuid (some e) s).1.released = s.released
  ∧ (Lock.refreshCompleted newGuid (some e) s).2.filter Effect.isScheduleHeartbeat = []
  ∧ (Lock.refreshCompleted newGuid (some e) s).2.filter Effect.isSendPut = [] := by
  simp [Lock.refreshCompleted, hcb, Effect.isScheduleHeartbeat, Effect.isSendPut]

/-- Witness for claim C8: a failing renewal write on the concrete renewing
lease (no deferred release queued). -/
theorem refresh_failure_behavior_witness :
    (Lock.refreshCompleted "B" (some ⟨"ConditionalCheckFailedException"⟩) renewingLease).2
        = [.emitError ⟨"ConditionalCheckFailedException"⟩]
  ∧ (Lock.refreshCompleted "B" (some ⟨"ConditionalCheckFailedException"⟩)
      renewingLease).1.recordVersionNumber = renewingLease.recordVersionNumber
  ∧ (Lock.refreshCompleted "B" (some ⟨"ConditionalCheckFailedException"⟩)
      renewingLease).1.released = renewingLease.released
  ∧ (Lock.refreshCompleted "B" (some ⟨"ConditionalCheckFailedException"⟩)
      renewingLease).2.filter Effect.isScheduleHeartbeat = []
  ∧ (Lock.refreshCompleted "B" (some ⟨"ConditionalCheckFailedException"⟩)
      renewingLease).2.filter Effect.isSendPut = [] :=
  refresh_failure_behavior renewingLease "B" ⟨"ConditionalCheckFailedException"⟩ (by decide)

/-- Outcome of one strongly-consistent read in `checkForExistingLock`. -/
inductive GetOutcome
| error (e : DynError)
| notFound
| found (item : LockRecord)
deriving DecidableEq, Repr

/-- Result of an acquisition run. `outOfFuel` marks a run whose oracle
lists were exhausted (the real protocol would still be waiting on the
backend). -/
inductive AcquireResult
| lockAcquired
| getError (e : DynError)
| failOpenError (code : String) (originalError : DynError)
| putError (e : DynError)
| outOfFuel
deriving DecidableEq, Repr

/-- What the put-completion handler decides. -/
inductive TryAcquireDecision
| acquired
| retry (retryCount : Int)
| failOpen (code : String) (originalError : DynError)
| propagate (e : DynError)
deriving DecidableEq, Repr

/-- The error branch of `FailOpen.tryAcquireLock`
(`src/index.ts` lines 234-245): a `ConditionalCheckFailedException`
decrements the retry budget and restarts when the budget is positive, and
otherwise produces the `FailOpenError` with code `"FailedToAcquireLock"`
wrapping the underlying failure; any other error is propagated unchanged. -/
def tryAcquireLockDecision (retryCount : Int) (error : Option DynError) :
    TryAcquireDecision :=
  match error with
  | none => .acquired
  | some e =>
    if e.code = "ConditionalCheckFailedException" then
      if 0 < retryCount then .retry (retryCount - 1)
      else .failOpen "FailedToAcquireLock" e
    else .propagate e

/-- The acquisition protocol of `FailOpen.checkForExistingLock` /
`acquireNewLock` / `acquireExistingLock` / `tryAcquireLock`, driven by
oracle lists of backend responses: each round performs one
strongly-consistent read (an error aborts; absence leads to the
insert-if-absent put, presence to the post-wait conditional overwrite —
both reach `tryAcquireLock`), then acts on the put outcome as the source
does. -/
def checkForExistingLock (retryCount : Int) :
    List GetOutcome → List (Option DynError) → AcquireResult
  | [], _ => .outOfFuel
  | .error e :: _, _ => .getError e
  | _ :: _, [] => .outOfFuel
  | _ :: gets, p :: puts =>
    match tryAcquireLockDecision retryCount p with
    | .acquired => .lockAcquired
    | .retry rc => checkForExistingLock rc gets puts
    | .failOpen c e => .failOpenError c e
    | .propagate e => .putError e

/-- Claim C5: a conditional-check failure on either conditional write
(after a read that found no record or found one) decrements the retry
budget and restarts the protocol with a fresh strongly-consistent read
when the budget is positive; with the budget exhausted — in particular
with `retryCount = 0` on the very first attempt — acquisition fails with
the `FailOpenError` (code `"FailedToAcquireLock"`) wrapping the underlying
conditional-check failure; any non-conditional write failure is propagated
unchanged. -/
theorem tryAcquireLock_retry_policy
    (retryCount : Int) (e : DynError) (item : LockRecord)
    (gets : List GetOutcome) (puts : List (Option DynError)) :
    (e.code = "ConditionalCheckFailedException" → 0 < retryCount →
      checkForExistingLock retryCount (.notFound :: gets) (some e :: puts)
          = checkForExistingLock (retryCount - 1) gets puts
        ∧ checkForExistingLock retryCount (.found item :: gets) (some e :: puts)
          = checkForExistingLock (retryCount - 1) gets puts)
  ∧ (e.code = "ConditionalCheckFailedException" → ¬ 0 < retryCount →
      checkForExistingLock retryCount (.notFound :: gets) (some e :: puts)
          = .failOpenError "FailedToAcquireLock" e
        ∧ checkForExistingLock retryCount (.found item :: gets) (some e :: puts)
          = .failOpenError "FailedToAcquireLock" e)
  ∧ (e.code ≠ "ConditionalCheckFailedException" →
      checkForExistingLock retryCount (.notFound :: gets) (some e :: puts)
          = .putError e
        ∧ checkForExistingLock retryCount (.found item :: gets) (some e :: puts)
          = .putError e) := by
  refine ⟨fun hc hrc => ?_, fun hc hrc => ?_, fun hc => ?_⟩ <;>
    simp [checkForExistingLock, tryAcquireLockDecision, hc] <;>
    simp [hrc]

/-- Witness for claim C5: a conditional-check failure retries once with a
budget of `1` (reaching the out-of-fuel marker of the drained oracles),
fails with the distinguished error with a budget of `0`, and a
`ProvisionedThroughputExceededException` is propagated unchanged. -/
theorem tryAcquireLock_retry_policy_witness :
    (checkForExistingLock 1 [.notFound] [some ⟨"ConditionalCheckFailedException"⟩]
        = checkForExistingLock 0 [] []
      ∧ checkForExistingLock 1 [.found ⟨"10000", none, "A"⟩]
            [some ⟨"ConditionalCheckFailedException"⟩]
        = checkForExistingLock 0 [] [])
  ∧ (checkForExistingLock 0 [.notFound] [some ⟨"ConditionalCheckFailedException"⟩]
        = .failOpenError "FailedToAcquireLock" ⟨"ConditionalCheckFailedException"⟩
      ∧ checkForExistingLock 0 [.found ⟨"10000", none, "A"⟩]
            [some ⟨"ConditionalCheckFailedException"⟩]
        = .failOpenError "FailedToAcquireLock" ⟨"ConditionalCheckFailedException"⟩)
  ∧ (checkForExistingLock 0 [.notFound] [some ⟨"ProvisionedThroughputExceededException"⟩]
        = .putError ⟨"ProvisionedThroughputExceededException"⟩
      ∧ checkForExistingLock 0 [.found ⟨"10000", none, "A"⟩]
            [some ⟨"ProvisionedThroughputExceededException"⟩]
        = .putError ⟨"ProvisionedThroughputExceededException"⟩) :=
  ⟨(tryAcquireLock_retry_policy 1 ⟨"ConditionalCheckFailedException"⟩
      ⟨"10000", none, "A"⟩ [] []).1 rfl (by decide),
   (tryAcquireLock_retry_policy 0 ⟨"ConditionalCheckFailedException"⟩
      ⟨"10000", none, "A"⟩ [] []).2.1 rfl (by decide),
   (tryAcquireLock_retry_policy 0 ⟨"ProvisionedThroughputExceededException"⟩
      ⟨"10000", none, "A"⟩ [] []).2.2 (by decide)⟩

/-- `reservedFieldNames` from `src/index.ts`. -/
def reservedFieldNames : List String :=
  ["leaseDuration", "lockAcquiredTimeUnixMs", "ownerName", "recordVersionNumber"]

/-- The `FailOpen` constructor's validation (`src/index.ts` lines 107-117):
the thrown error message, or `none` when construction succeeds. -/
def FailOpen.constructorError (config : FailOpenConfig) : Option String :=
  if reservedFieldNames.contains config.partitionKey then
    some ("Cannot use reserved field name " ++ config.partitionKey ++ " for partition key.")
  else if strOptTruthy config.sortKey
      && reservedFieldNames.contains (config.sortKey.getD "") then
    some ("Cannot use reserved field name " ++ config.sortKey.getD "" ++ " for sort key.")
  else none

/-- A concrete client configuration used by witnesses and counterexamples. -/
def sampleClientConfig : FailOpenConfig :=
  { ownerName := "owner-1"
    lockTable := "locks"
    partitionKey := "id"
    sortKey := none
    heartbeatPeriodMs := some 3000
    leaseDuration := 10000
    leaseUnit := .milliseconds
    trustLocalTime := false
    retryCount := some 1 }

/-- `sampleClientConfig` with `"createdAt"` as the partition key name. -/
def createdAtKeyConfig : FailOpenConfig :=
  { sampleClientConfig with partitionKey := "createdAt" }

/-- A concrete acquisition data bag used by witnesses and counterexamples. -/
def sampleDataBag : AcquireLockData :=
  { partitionID := .str "resource-1"
    sortID := .undef
    ownerName := "owner-1"
    retryCount := 1
    recordVersionNumber := "A" }

/-- Claim C9 is false on the code as the claim defines the reserved names:
`"createdAt"` is a non-key field the data model writes to every record
(it appears in the item of every fresh acquisition, conditional overwrite
and renewal), yet it is not in `reservedFieldNames`, and construction with
partition key `"createdAt"` succeeds without a reserved-name error. -/
theorem reserved_names_createdAt_counterexample :
    FailOpen.constructorError createdAtKeyConfig = none
  ∧ "createdAt" ∈ (acquireNewLockParams sampleClientConfig sampleDataBag
      "2026-01-01T00:00:00.000Z" 0).item.map Prod.fst
  ∧ "createdAt" ∈ (acquireExistingLockParams sampleClientConfig sampleDataBag
      ⟨"10000", none, "B"⟩ "2026-01-01T00:00:00.000Z" 0).item.map Prod.fst
  ∧ "createdAt" ∈ (refreshLockParams sampleLockConfig "A" "B"
      "2026-01-01T00:00:00.000Z" 0).item.map Prod.fst
  ∧ "createdAt" ∉ reservedFieldNames
  ∧ "createdAt" ≠ sampleClientConfig.partitionKey := by
  decide

/-- Claim C9 (amended): construction fails fast with a reserved-name error
if and only if the configured partition key or sort key attribute name is
one of the four names in `reservedFieldNames` (`leaseDuration`,
`lockAcquiredTimeUnixMs`, `ownerName`, `recordVersionNumber`); for all
other attribute names — including `createdAt`, which is written to every
record but not reserved — construction succeeds without a reserved-name
error. -/
theorem constructor_reserved_name_validation (config : FailOpenConfig) :
    (FailOpen.constructorError config).isSome
      = (reservedFieldNames.contains config.partitionKey
         || (match config.sortKey with
             | some s => reservedFieldNames.contains s
             | none => false)) := by
  unfold FailOpen.constructorError
  cases hsk : config.sortKey with
  | none =>
    cases hp : reservedFieldNames.contains config.partitionKey <;> simp [hp, strOptTruthy]
  | some s =>
    cases hp : reservedFieldNames.contains config.partitionKey
    · by_cases hs : s = ""
      · subst hs
        simp [strOptTruthy, hp]
        decide
      · have hsb : (s != "") = true := by simp [hs]
        by_cases hc : s ∈ reservedFieldNames <;> simp [strOptTruthy, hp, hsb, hc]
    · simp [hp]

/-- Extraction of the sort component from a structured id in
`FailOpen.acquireLock` (`src/index.ts` lines 122-127): the JavaScript
property read `id[config.sortKey]`, a missing property reading as
`undefined`. -/
def acquireLockSortID (config : FailOpenConfig) (id : List (String × JSVal)) : JSVal :=
  match id.lookup (config.sortKey.getD "undefined") with
  | some v => v
  | none => JSVal.undef

/-- The missing-sort-key validation of `FailOpen.acquireLock`
(`src/index.ts` lines 128-130): the call fails iff a sort key is
configured and the extracted sort component is strictly `undefined`. -/
def acquireLockValidationFails (config : FailOpenConfig) (sortID : JSVal) : Bool :=
  strOptTruthy config.sortKey && sortID == JSVal.undef

/-- Claim C10: a structured id whose configured sort-key component is
present but falsy (such as `0` or `""`) passes the missing-sort-key
validation, yet the items written by both the insert-if-absent and the
conditional-overwrite attempts omit the sort key attribute, whereas the
Key of release's conditional delete does include that component. -/
theorem falsy_sortID_asymmetry
    (config : FailOpenConfig) (dataBag : AcquireLockData) (lock : LockRecord)
    (c : LockConfig) (sk recordVersionNumber nowIso : String) (nowMs : Int)
    (hsk : config.sortKey = some sk) (hskne : sk ≠ "")
    (hid : dataBag.sortID ≠ .undef) (hfalsy : dataBag.sortID.truthy = false)
    (hpk : sk ≠ config.partitionKey)
    (hres : sk ∉ ["leaseDuration", "ownerName", "recordVersionNumber", "createdAt",
        "lockAcquiredTimeUnixMs"])
    (hcsk : c.sortKey = some sk) :
    acquireLockValidationFails config dataBag.sortID = false
  ∧ sk ∉ (acquireNewLockParams config dataBag nowIso nowMs).item.map Prod.fst
  ∧ sk ∉ (acquireExistingLockParams config dataBag lock nowIso nowMs).item.map Prod.fst
  ∧ sk ∈ (releaseDeleteParams c recordVersionNumber).key.map Prod.fst := by
  have hres' : ¬ sk = "leaseDuration" ∧ ¬ sk = "ownerName" ∧ ¬ sk = "recordVersionNumber"
      ∧ ¬ sk = "createdAt" ∧ ¬ sk = "lockAcquiredTimeUnixMs" := by
    simpa using hres
  obtain ⟨h1, h2, h3, h4, h5⟩ := hres'
  refine ⟨?_, ?_, ?_, ?_⟩
  · simp [acquireLockValidationFails, hid]
  · cases htl : config.trustLocalTime <;>
      simp [acquireNewLockParams, hfalsy, htl, hpk, h1, h2, h3, h4, h5]
  · cases htl : config.trustLocalTime <;>
      simp [acquireExistingLockParams, hfalsy, htl, hpk, h1, h2, h3, h4, h5]
  · simp [releaseDeleteParams, hcsk, strOptTruthy, hskne]

/-- A lease configuration with a configured sort key and the falsy sort
component `0`. -/
def sortedLockConfig : LockConfig :=
  { sampleLockConfig with sortKey := some "sk", sortID := .num 0 }

/-- A client configuration with sort key attribute name `"sk"`. -/
def sortedClientConfig : FailOpenConfig :=
  { sampleClientConfig with sortKey := some "sk" }

/-- A data bag whose sort component is the falsy number `0`. -/
def falsySortDataBag : AcquireLockData :=
  { sampleDataBag with sortID := .num 0 }

/-- Witness for claim C10 at sort component `0`. -/
theorem falsy_sortID_asymmetry_witness :
    acquireLockValidationFails sortedClientConfig falsySortDataBag.sortID = false
  ∧ "sk" ∉ (acquireNewLockParams sortedClientConfig falsySortDataBag
      "2026-01-01T00:00:00.000Z" 0).item.map Prod.fst
  ∧ "sk" ∉ (acquireExistingLockParams sortedClientConfig falsySortDataBag
      ⟨"10000", none, "B"⟩ "2026-01-01T00:00:00.000Z" 0).item.map Prod.fst
  ∧ "sk" ∈ (releaseDeleteParams sortedLockConfig "A").key.map Prod.fst :=
  falsy_sortID_asymmetry sortedClientConfig falsySortDataBag ⟨"10000", none, "B"⟩
    sortedLockConfig "sk" "A" "2026-01-01T00:00:00.000Z" 0
    (by decide) (by decide) (by decide) (by decide) (by decide) (by decide) (by decide)

end DynamoDbLockClient
